import Mathlib

/-!
Shallow embedding of `src/fetch_siemensbahn.py` (the `main` pipeline).

The script probes a fixed list of Overpass mirrors with one query, extracts
"way" elements carrying inline geometry from the parsed JSON body, builds
GeoJSON line features, wraps them in a GeoDataFrame tagged EPSG:4326,
reprojects to EPSG:25833, writes four output files under `data/`, and
renders a folium map centered on the midpoint of the table's total bounds.

Dictionary lookups that can raise `KeyError` in Python are modelled with
`Option` fields: `elem["id"]`, `node["lon"]`, `node["lat"]` are fallible
lookups, while `way.get("tags", {}).get("name", "")` defaults to the empty
string. Coordinates are modelled as rationals. Library effects
(requests, geopandas, folium) are modelled as explicit data: the prober
records the contacted URLs, and the write/render stage produces a list of
filesystem actions instead of performing I/O.
-/

set_option autoImplicit false

namespace Siemensbahn

/-- One point of a way's inline geometry, as a JSON object whose `lon` and
`lat` keys may be absent (absence makes the Python lookup raise). -/
structure GeomPoint where
  lon : Option ℚ
  lat : Option ℚ
deriving DecidableEq

/-- One element of the parsed Overpass response: its `type` marker, its
optional `id`, optional `tags` object (an association list of string keys to
string values, first binding wins) and optional inline `geometry`. -/
structure Element where
  type : String
  id : Option Int
  tags : Option (List (String × String))
  geometry : Option (List GeomPoint)
deriving DecidableEq

/-- The parsed response body: `data["elements"]`. -/
structure OverpassData where
  elements : List Element
deriving DecidableEq

/-- A GeoJSON line feature as built by the script: the coordinate list of
`[lon, lat]` pairs and the two properties `osm_id` and `name`. -/
structure Feature where
  coordinates : List (ℚ × ℚ)
  osm_id : Int
  name : String
deriving DecidableEq

/-- Python `d.get(key)` on a JSON object modelled as an association list:
the value at the first binding of `key`, if any. -/
def getTag (tags : List (String × String)) (key : String) : Option String :=
  (tags.find? (fun kv => kv.1 == key)).map (fun kv => kv.2)

/-- `way.get("tags", {}).get("name", "")` from line 104 of the source. -/
def wayName (way : Element) : String :=
  (getTag (way.tags.getD []) "name").getD ""

/-- `[node["lon"], node["lat"]]` from line 95: fails when either key is
absent. -/
def nodeCoords (node : GeomPoint) : Option (ℚ × ℚ) :=
  match node.lon, node.lat with
  | some lo, some la => some (lo, la)
  | _, _ => none

/-- The list comprehension of line 95 building `coords`: fails as soon as
one node lacks `lon` or `lat`. -/
def geomCoords : List GeomPoint → Option (List (ℚ × ℚ))
  | [] => some []
  | node :: rest =>
    match nodeCoords node, geomCoords rest with
    | some c, some cs => some (c :: cs)
    | _, _ => none

/-- One iteration of the loop of lines 93-106 on a single way:
`some none` when the way has no `"geometry"` key (skipped, no feature),
`some (some f)` when a feature is appended, and `none` when a `KeyError`
is raised (missing `id`, or a geometry node missing `lon`/`lat`). -/
def wayFeature (way : Element) : Option (Option Feature) :=
  match way.geometry with
  | none => some none
  | some geom =>
    match geomCoords geom, way.id with
    | some coords, some i => some (some ⟨coords, i, wayName way⟩)
    | _, _ => none

/-- The loop of lines 92-106 over the filtered `ways` list, accumulating
`features` in order; `none` models the run aborting with a `KeyError`. -/
def buildFeatures : List Element → Option (List Feature)
  | [] => some []
  | way :: rest =>
    match wayFeature way with
    | none => none
    | some none => buildFeatures rest
    | some (some f) => (buildFeatures rest).map (fun fs => f :: fs)

/-- `elem["type"] == "way"`, the filter of line 87. -/
def isWay (e : Element) : Bool :=
  e.type == "way"

/-- Lines 87-106: filter the response's elements down to ways, then build
one feature per way that carries geometry. -/
def extractFeatures (data : OverpassData) : Option (List Feature) :=
  buildFeatures (data.elements.filter isWay)

/-- Presence of the `"geometry"` key tested on line 94. -/
def hasGeom (e : Element) : Bool :=
  e.geometry.isSome

/-- An element that contributes a feature: a way carrying a `"geometry"`
key. -/
def qualifies (e : Element) : Bool :=
  isWay e && hasGeom e

/-- A geometry node on which line 95 cannot raise: both `lon` and `lat`
present. -/
def wfPoint (p : GeomPoint) : Bool :=
  p.lon.isSome && p.lat.isSome

/-- A way on which the loop body cannot raise: `id` present and every
geometry node fully keyed. -/
def wfWay (e : Element) : Bool :=
  e.id.isSome && (e.geometry.getD []).all wfPoint

/-- The feature the loop body builds from a well-formed way (total
companion of `wayFeature`, with dummy defaults where a lookup would have
raised). -/
def featureOf (e : Element) : Feature :=
  ⟨(e.geometry.getD []).map (fun p => (p.lon.getD 0, p.lat.getD 0)),
   e.id.getD 0, wayName e⟩

/-- The fixed candidate list of lines 55-59. -/
def overpass_urls : List String :=
  ["https://overpass.kumi.systems/api/interpreter",
   "https://overpass-api.de/api/interpreter",
   "https://overpass.openstreetmap.ru/api/interpreter"]

/-- The fallback loop of lines 69-81. `attempt` maps a URL to `some` parsed
body on success (2xx status and parseable JSON) or `none` on any failure
(network error, timeout, non-success status, parse error). Returns the
value of `data` after the loop together with the list of URLs actually
contacted, in contact order. -/
def probe (attempt : String → Option OverpassData) :
    List String → Option OverpassData × List String
  | [] => (none, [])
  | url :: rest =>
    match attempt url with
    | some d => (some d, [url])
    | none =>
      let r := probe attempt rest
      (r.1, url :: r.2)

/-- A feature table: a list of features tagged with one CRS. -/
structure GeoDataFrame where
  crs : String
  features : List Feature
deriving DecidableEq

/-- `gpd.GeoDataFrame.from_features(geojson, crs=...)` of line 114. -/
def from_features (features : List Feature) (crs : String) : GeoDataFrame :=
  ⟨crs, features⟩

/-- Model of the pyproj/geopandas coordinate transform family used by
`to_crs`: a deterministic point map indexed by source and target CRS.
`apply_same` records that transforming a coordinate from a CRS to
that same CRS leaves it unchanged, as the library guarantees. -/
structure CRSTransform where
  apply : String → String → ℚ × ℚ → ℚ × ℚ
  apply_same : ∀ c p, apply c c p = p

/-- Reprojection of one feature's coordinates from `source` to `target`. -/
def reprojectFeature (T : CRSTransform) (source target : String)
    (f : Feature) : Feature :=
  { f with coordinates := f.coordinates.map (T.apply source target) }

/-- `gdf.to_crs(target)` of line 117: a new table tagged `target` whose
coordinates are the pointwise transform of the input's from its CRS. -/
def to_crs (T : CRSTransform) (gdf : GeoDataFrame) (target : String) :
    GeoDataFrame :=
  ⟨target, gdf.features.map (reprojectFeature T gdf.crs target)⟩

/-- All coordinates of the table's features, concatenated in order. -/
def allCoords (gdf : GeoDataFrame) : List (ℚ × ℚ) :=
  gdf.features.foldr (fun f acc => f.coordinates ++ acc) []

/-- `gdf.total_bounds` as indexed on lines 149-151:
entry 0 = minx, 1 = miny, 2 = maxx, 3 = maxy. -/
structure Bounds where
  minx : ℚ
  miny : ℚ
  maxx : ℚ
  maxy : ℚ
deriving DecidableEq

/-- `gdf.total_bounds` of line 149: the componentwise extremes over every
coordinate of every feature (x = lon, y = lat). On an empty table the
library yields NaNs; the model returns a placeholder unused by any claim,
which are all conditioned on non-emptiness. -/
def total_bounds (gdf : GeoDataFrame) : Bounds :=
  match allCoords gdf with
  | [] => ⟨0, 0, 0, 0⟩
  | c :: cs =>
    ⟨cs.foldl (fun a p => min a p.1) c.1,
     cs.foldl (fun a p => min a p.2) c.2,
     cs.foldl (fun a p => max a p.1) c.1,
     cs.foldl (fun a p => max a p.2) c.2⟩

/-- The folium map as configured on lines 154-173: initial focal point
`location` as a (latitude, longitude) pair, fixed zoom, fixed tile layer,
and the overlaid geographic table. -/
structure FoliumMap where
  location : ℚ × ℚ
  zoom_start : Nat
  tiles : String
  layer : GeoDataFrame
deriving DecidableEq

/-- Lines 148-173: compute the center from `total_bounds` and build the
map with the geographic table overlaid. -/
def buildMap (gdf : GeoDataFrame) : FoliumMap :=
  let bounds := total_bounds gdf
  let center_lat := (bounds.miny + bounds.maxy) / 2
  let center_lon := (bounds.minx + bounds.maxx) / 2
  ⟨(center_lat, center_lon), 13, "OpenStreetMap", gdf⟩

/-- What is written to one output file: a vector file in a given driver
format holding one table, or the rendered HTML map. -/
inductive OutputContent
  | vector (driver : String) (gdf : GeoDataFrame)
  | htmlMap (m : FoliumMap)
deriving DecidableEq

/-- One file write: target path and content. -/
structure FileWrite where
  path : String
  content : OutputContent
deriving DecidableEq

/-- One filesystem action of the pipeline's output stage. -/
inductive FsAction
  | mkdirAction (path : String)
  | write (w : FileWrite)
deriving DecidableEq

/-- The file writes among a list of filesystem actions. -/
def outputWrites (acts : List FsAction) : List FileWrite :=
  acts.filterMap (fun a =>
    match a with
    | .write w => some w
    | _ => none)

/-- The output stage of lines 113-177 on the extracted feature list: build
the geographic table, reproject it, create the output directory and write
the four output files in program order. -/
def runActs (T : CRSTransform) (features : List Feature) : List FsAction :=
  let gdf := from_features features "EPSG:4326"
  let gdf_utm := to_crs T gdf "EPSG:25833"
  [.mkdirAction "data",
   .write ⟨"data/siemensbahn_wgs84.geojson", .vector "GeoJSON" gdf⟩,
   .write ⟨"data/siemensbahn_utm33.geojson", .vector "GeoJSON" gdf_utm⟩,
   .write ⟨"data/siemensbahn_utm33.shp", .vector "ESRI Shapefile" gdf_utm⟩,
   .write ⟨"data/siemensbahn_map.html", .htmlMap (buildMap gdf)⟩]

/-- Lines 87-177: everything after a successful fetch. `Except.error`
models the run aborting on a raised `KeyError` during extraction. -/
def afterFetch (T : CRSTransform) (data : OverpassData) :
    Except String (List FsAction) :=
  match extractFeatures data with
  | none => .error "KeyError"
  | some features => .ok (runActs T features)

/-- The `main` pipeline of lines 46-178, parameterized by the per-URL
attempt outcome and the coordinate transform family. `Except.error`
models the run terminating on a raised exception (before any filesystem
action); `Except.ok` lists the filesystem actions of a successful run in
program order. -/
def mainRun (attempt : String → Option OverpassData) (T : CRSTransform) :
    Except String (List FsAction) :=
  match (probe attempt overpass_urls).1 with
  | none => .error "All Overpass instances failed"
  | some data => afterFetch T data

/-- The identity transform family: a concrete `CRSTransform` instance used
by witnesses. -/
def idTransform : CRSTransform :=
  ⟨fun _ _ p => p, fun _ _ => rfl⟩

/-! ### Sample data for witnesses -/

/-- A fully keyed geometry point. -/
def samplePoint1 : GeomPoint := ⟨some 13, some 52⟩

/-- A second fully keyed geometry point. -/
def samplePoint2 : GeomPoint := ⟨some 14, some 53⟩

/-- A well-formed way element with geometry, id and a name tag. -/
def sampleWay : Element :=
  ⟨"way", some 100, some [("name", "Siemensbahn")], some [samplePoint1, samplePoint2]⟩

/-- A non-way element without geometry. -/
def sampleNode : Element := ⟨"node", some 7, none, none⟩

/-- A small well-formed response body. -/
def sampleData : OverpassData := ⟨[sampleWay, sampleNode]⟩

/-- A malformed way: geometry present but no `id` key. -/
def badWay : Element := ⟨"way", none, none, some [⟨some 13, some 52⟩]⟩

/-- A response containing the malformed way. -/
def badData : OverpassData := ⟨[badWay]⟩

/-- A concrete attempt outcome: the second mirror answers, the others
fail. -/
def sampleAttempt (u : String) : Option OverpassData :=
  if u = "https://overpass-api.de/api/interpreter" then some sampleData else none

/-- A concrete attempt outcome: the first mirror answers with a response
holding no qualifying element. -/
def emptyAttempt (u : String) : Option OverpassData :=
  if u = "https://overpass.kumi.systems/api/interpreter" then some ⟨[sampleNode]⟩
  else none

/-- The geographic table built from the sample way's feature. -/
def sampleGdf : GeoDataFrame := from_features [featureOf sampleWay] "EPSG:4326"

/-- The action list of the successful sample run. -/
def sampleRunActs : List FsAction :=
  match mainRun sampleAttempt idTransform with
  | .ok acts => acts
  | .error _ => []

/-! ### Extraction lemmas -/

theorem nodeCoords_wf (p : GeomPoint) (h : wfPoint p = true) :
    nodeCoords p = some (p.lon.getD 0, p.lat.getD 0) := by
  simp only [wfPoint, Bool.and_eq_true, Option.isSome_iff_exists] at h
  obtain ⟨⟨lo, hlo⟩, ⟨la, hla⟩⟩ := h
  simp [nodeCoords, hlo, hla]

theorem geomCoords_wf (g : List GeomPoint) (h : ∀ p ∈ g, wfPoint p = true) :
    geomCoords g = some (g.map (fun p => (p.lon.getD 0, p.lat.getD 0))) := by
  induction g with
  | nil => rfl
  | cons p g ih =>
    have hp := nodeCoords_wf p (h p (by simp))
    have hrest := ih (fun q hq => h q (by simp [hq]))
    simp [geomCoords, hp, hrest]

theorem wayFeature_wf (e : Element) (g : List GeomPoint)
    (hg : e.geometry = some g) (hwf : wfWay e = true) :
    wayFeature e = some (some (featureOf e)) := by
  simp only [wfWay, hg, Option.getD_some, Bool.and_eq_true, List.all_eq_true,
    Option.isSome_iff_exists] at hwf
  obtain ⟨⟨i, hi⟩, hpts⟩ := hwf
  have hc := geomCoords_wf g hpts
  simp [wayFeature, hg, hc, hi, featureOf]

theorem buildFeatures_wf (l : List Element)
    (h : ∀ e ∈ l, hasGeom e = true → wfWay e = true) :
    buildFeatures l = some ((l.filter hasGeom).map featureOf) := by
  induction l with
  | nil => rfl
  | cons a l ih =>
    have hrest := ih (fun e he hg => h e (by simp [he]) hg)
    cases hg : a.geometry with
    | none =>
      have hga : hasGeom a = false := by simp [hasGeom, hg]
      have hwa : wayFeature a = some none := by simp [wayFeature, hg]
      simp [buildFeatures, hwa, List.filter_cons, hga, hrest]
    | some g =>
      have hga : hasGeom a = true := by simp [hasGeom, hg]
      have hwa := wayFeature_wf a g hg (h a (by simp) hga)
      simp [buildFeatures, hwa, List.filter_cons, hga, hrest]

theorem filter_isWay_hasGeom (l : List Element) :
    (l.filter isWay).filter hasGeom = l.filter qualifies := by
  induction l with
  | nil => rfl
  | cons a l ih =>
    cases hw : isWay a <;> cases hg : hasGeom a <;>
      simp [List.filter_cons, hw, hg, qualifies, ih]

theorem extractFeatures_wf (data : OverpassData)
    (hwf : ∀ e ∈ data.elements, qualifies e = true → wfWay e = true) :
    extractFeatures data = some ((data.elements.filter qualifies).map featureOf) := by
  have h1 : ∀ e ∈ data.elements.filter isWay, hasGeom e = true → wfWay e = true := by
    intro e he hg
    rcases List.mem_filter.mp he with ⟨hmem, hw⟩
    exact hwf e hmem (by simp [qualifies, hw, hg])
  unfold extractFeatures
  rw [buildFeatures_wf _ h1, filter_isWay_hasGeom]

theorem buildFeatures_filter_hasGeom (l : List Element) :
    buildFeatures (l.filter hasGeom) = buildFeatures l := by
  induction l with
  | nil => rfl
  | cons a l ih =>
    cases hg : a.geometry with
    | none =>
      have hga : hasGeom a = false := by simp [hasGeom, hg]
      have hwa : wayFeature a = some none := by simp [wayFeature, hg]
      simp [List.filter_cons, hga, buildFeatures, hwa, ih]
    | some g =>
      have hga : hasGeom a = true := by simp [hasGeom, hg]
      simp only [List.filter_cons, hga, buildFeatures, ih]

theorem extractFeatures_eq_qualifies (data : OverpassData) :
    extractFeatures data = buildFeatures (data.elements.filter qualifies) := by
  unfold extractFeatures
  rw [← filter_isWay_hasGeom, buildFeatures_filter_hasGeom]

theorem nodeCoords_fail (p : GeomPoint) (hbad : p.lon = none ∨ p.lat = none) :
    nodeCoords p = none := by
  cases hl : p.lon <;> cases hl2 : p.lat <;> simp_all [nodeCoords]

theorem geomCoords_fail (g : List GeomPoint) (p : GeomPoint)
    (hp : p ∈ g) (hbad : p.lon = none ∨ p.lat = none) :
    geomCoords g = none := by
  induction g with
  | nil => cases hp
  | cons q g ih =>
    rcases List.mem_cons.mp hp with rfl | hmem
    · have hn := nodeCoords_fail p hbad
      cases hc : geomCoords g <;> simp [geomCoords, hn, hc]
    · have hr := ih hmem
      cases hq : nodeCoords q <;> simp [geomCoords, hq, hr]

theorem wayFeature_fail (e : Element) (g : List GeomPoint)
    (hg : e.geometry = some g)
    (hbad : e.id = none ∨ ∃ p ∈ g, (p.lon = none ∨ p.lat = none)) :
    wayFeature e = none := by
  rcases hbad with hid | ⟨p, hp, hbadp⟩
  · cases hc : geomCoords g <;> simp [wayFeature, hg, hc, hid]
  · have hgc := geomCoords_fail g p hp hbadp
    cases hi : e.id <;> simp [wayFeature, hg, hgc, hi]

theorem buildFeatures_fail (l : List Element) (e : Element)
    (he : e ∈ l) (hf : wayFeature e = none) :
    buildFeatures l = none := by
  induction l with
  | nil => cases he
  | cons a l ih =>
    rcases List.mem_cons.mp he with rfl | hmem
    · simp [buildFeatures, hf]
    · have hr := ih hmem
      cases ha : wayFeature a with
      | none => simp [buildFeatures, ha]
      | some o => cases o <;> simp [buildFeatures, ha, hr]

/-! ### Claim theorems: extraction -/

/-- C1: for a parsed response body in which every way element carrying
geometry is fully keyed, the extractor produces exactly one line feature
per way-with-geometry element, in the same relative order as the source
elements: the output is the order-preserving image of the qualifying
elements, so N qualifying elements give exactly N features. -/
theorem C1_extract_count_and_order (data : OverpassData)
    (hwf : ∀ e ∈ data.elements, qualifies e = true → wfWay e = true) :
    extractFeatures data = some ((data.elements.filter qualifies).map featureOf) :=
  extractFeatures_wf data hwf

/-- C1 witness: the theorem applied to a concrete two-element response
(one way with geometry, one node). -/
theorem C1_witness :
    (∀ e ∈ sampleData.elements, qualifies e = true → wfWay e = true) ∧
    extractFeatures sampleData =
      some ((sampleData.elements.filter qualifies).map featureOf) :=
  ⟨by decide, C1_extract_count_and_order sampleData (by decide)⟩

/-- C2: elements that are not ways, or that lack geometry, contribute no
feature: deleting all of them from the response leaves the extractor's
output unchanged, and a response with no qualifying element yields the
empty feature list. -/
theorem C2_nonqualifying_excluded (data : OverpassData) :
    extractFeatures data = extractFeatures ⟨data.elements.filter qualifies⟩ ∧
    (data.elements.filter qualifies = [] → extractFeatures data = some []) := by
  have hself : (data.elements.filter qualifies).filter qualifies
      = data.elements.filter qualifies := by
    apply List.filter_eq_self.mpr
    intro a ha
    exact (List.mem_filter.mp ha).2
  have hmain : extractFeatures data = buildFeatures (data.elements.filter qualifies) :=
    extractFeatures_eq_qualifies data
  have hfiltered : extractFeatures ⟨data.elements.filter qualifies⟩
      = buildFeatures (data.elements.filter qualifies) := by
    have := extractFeatures_eq_qualifies ⟨data.elements.filter qualifies⟩
    simpa [hself] using this
  refine ⟨hmain.trans hfiltered.symm, fun hempty => ?_⟩
  rw [hmain, hempty]
  rfl

/-- C2 witness: the theorem applied to a concrete response, with the
no-qualifying-element consequence evaluated on a way-free response. -/
theorem C2_witness :
    extractFeatures ⟨[sampleNode]⟩ = some [] :=
  (C2_nonqualifying_excluded ⟨[sampleNode]⟩).2 (by decide)

/-- C9: extraction is total exactly under the well-formedness
precondition. If every qualifying way is fully keyed the extractor
succeeds; and if the response contains a way with geometry that lacks an
`id`, or one of whose geometry points lacks `lon` or `lat`, the run aborts
with a lookup error (modelled as `none`). -/
theorem C9_extract_partiality (data : OverpassData) :
    ((∀ e ∈ data.elements, qualifies e = true → wfWay e = true) →
      (extractFeatures data).isSome = true) ∧
    (∀ e ∈ data.elements, e.type = "way" →
      ∀ g, e.geometry = some g →
      (e.id = none ∨ ∃ p ∈ g, (p.lon = none ∨ p.lat = none)) →
      extractFeatures data = none) := by
  constructor
  · intro hwf
    rw [extractFeatures_wf data hwf]
    rfl
  · intro e he hty g hg hbad
    have hwmem : e ∈ data.elements.filter isWay :=
      List.mem_filter.mpr ⟨he, by simp [isWay, hty]⟩
    have hfail := wayFeature_fail e g hg hbad
    unfold extractFeatures
    exact buildFeatures_fail _ e hwmem hfail

/-- C9 witness: a way with geometry but no `id` aborts extraction. -/
theorem C9_witness : extractFeatures badData = none :=
  (C9_extract_partiality badData).2 badWay (by decide) (by decide)
    [⟨some 13, some 52⟩] (by decide) (Or.inl (by decide))

/-- C5: the feature built from a well-formed way element has the
element's geometry points as its coordinates, in original order and as
(longitude, latitude) pairs; its attributes are the element's integer
identifier and its name tag, with the empty string when the name tag or
the whole tags object is absent. -/
theorem C5_feature_content (e : Element) (g : List GeomPoint) (i : Int)
    (_hty : e.type = "way") (hg : e.geometry = some g) (hid : e.id = some i)
    (hpts : ∀ p ∈ g, wfPoint p = true) :
    ∃ f, wayFeature e = some (some f) ∧
      f.coordinates = g.map (fun p => (p.lon.getD 0, p.lat.getD 0)) ∧
      f.osm_id = i ∧
      f.name = (getTag (e.tags.getD []) "name").getD "" ∧
      (e.tags = none → f.name = "") ∧
      (∀ ts, e.tags = some ts → getTag ts "name" = none → f.name = "") ∧
      (∀ ts v, e.tags = some ts → getTag ts "name" = some v → f.name = v) := by
  have hwf : wfWay e = true := by
    simp [wfWay, hg, hid, List.all_eq_true]
    exact hpts
  refine ⟨featureOf e, wayFeature_wf e g hg hwf, ?_, ?_, ?_, ?_, ?_, ?_⟩
  · simp [featureOf, hg]
  · simp [featureOf, hid]
  · rfl
  · intro ht; simp [featureOf, wayName, ht, getTag]
  · intro ts ht hn; simp [featureOf, wayName, ht, hn]
  · intro ts v ht hn; simp [featureOf, wayName, ht, hn]

/-- C5 witness: the theorem applied to the sample way, whose name tag is
present. -/
theorem C5_witness :
    ∃ f, wayFeature sampleWay = some (some f) ∧
      f.coordinates = [samplePoint1, samplePoint2].map
        (fun p => (p.lon.getD 0, p.lat.getD 0)) ∧
      f.osm_id = 100 ∧
      f.name = (getTag (sampleWay.tags.getD []) "name").getD "" ∧
      (sampleWay.tags = none → f.name = "") ∧
      (∀ ts, sampleWay.tags = some ts → getTag ts "name" = none → f.name = "") ∧
      (∀ ts v, sampleWay.tags = some ts → getTag ts "name" = some v → f.name = v) :=
  C5_feature_content sampleWay [samplePoint1, samplePoint2] 100
    (by decide) (by decide) (by decide) (by decide)

/-! ### Prober lemmas -/

theorem probe_trace_pre (attempt : String → Option OverpassData)
    (urls : List String) :
    ∃ rest, urls = (probe attempt urls).2 ++ rest := by
  induction urls with
  | nil => exact ⟨[], rfl⟩
  | cons url rest ih =>
    cases ha : attempt url with
    | some d => exact ⟨rest, by simp [probe, ha]⟩
    | none =>
      obtain ⟨r2, hr2⟩ := ih
      exact ⟨r2, by simp [probe, ha]; exact hr2⟩

theorem probe_success (attempt : String → Option OverpassData)
    (urls : List String) (d : OverpassData)
    (h : (probe attempt urls).1 = some d) :
    ∃ pre url, attempt url = some d ∧ (∀ u ∈ pre, attempt u = none) ∧
      (probe attempt urls).2 = pre ++ [url] ∧
      ∃ rest, urls = pre ++ url :: rest := by
  induction urls with
  | nil => simp [probe] at h
  | cons url rest ih =>
    cases ha : attempt url with
    | some e =>
      have hval : (probe attempt (url :: rest)).1 = some e := by simp [probe, ha]
      have hde : e = d := by rw [hval] at h; exact (Option.some_injective _ h)
      refine ⟨[], url, by rw [ha, hde], by simp, ?_, rest, by simp⟩
      simp [probe, ha]
    | none =>
      have hrec : (probe attempt (url :: rest)).1 = (probe attempt rest).1 := by
        simp [probe, ha]
      obtain ⟨pre, u, hu, hpre, htr, r2, hr2⟩ := ih (by rw [← hrec, h])
      refine ⟨url :: pre, u, hu, ?_, ?_, r2, by simp [hr2]⟩
      · intro v hv
        rcases List.mem_cons.mp hv with rfl | hv2
        · exact ha
        · exact hpre v hv2
      · simp [probe, ha, htr]

theorem probe_exhausted (attempt : String → Option OverpassData)
    (urls : List String) (h : (probe attempt urls).1 = none) :
    (probe attempt urls).2 = urls ∧ ∀ u ∈ urls, attempt u = none := by
  induction urls with
  | nil => exact ⟨rfl, by simp⟩
  | cons url rest ih =>
    cases ha : attempt url with
    | some d => simp [probe, ha] at h
    | none =>
      have hrec : (probe attempt (url :: rest)).1 = (probe attempt rest).1 := by
        simp [probe, ha]
      obtain ⟨htr, hall⟩ := ih (by rw [← hrec, h])
      refine ⟨by simp [probe, ha, htr], ?_⟩
      intro v hv
      rcases List.mem_cons.mp hv with rfl | hv2
      · exact ha
      · exact hall v hv2

theorem probe_none_of_all_fail (attempt : String → Option OverpassData)
    (urls : List String) (h : ∀ u ∈ urls, attempt u = none) :
    (probe attempt urls).1 = none := by
  induction urls with
  | nil => rfl
  | cons url rest ih =>
    have ha : attempt url = none := h url (by simp)
    have hr := ih (fun u hu => h u (by simp [hu]))
    simp [probe, ha, hr]

/-! ### Claim theorems: prober and pipeline -/

/-- C3: the prober contacts the fixed candidate list in order: the
contacted URLs form a duplicate-free initial segment of the list; when it
returns a parsed body, that body came from the first candidate whose
attempt succeeded, every earlier candidate failed, and no later candidate
was contacted; when it returns nothing, every candidate was contacted
exactly once and failed. -/
theorem C3_prober_first_success (attempt : String → Option OverpassData) :
    (∃ rest, overpass_urls = (probe attempt overpass_urls).2 ++ rest) ∧
    (probe attempt overpass_urls).2.Nodup ∧
    (∀ d, (probe attempt overpass_urls).1 = some d →
      ∃ pre url, attempt url = some d ∧ (∀ u ∈ pre, attempt u = none) ∧
        (probe attempt overpass_urls).2 = pre ++ [url] ∧
        ∃ rest, overpass_urls = pre ++ url :: rest) ∧
    ((probe attempt overpass_urls).1 = none →
      (probe attempt overpass_urls).2 = overpass_urls ∧
      ∀ u ∈ overpass_urls, attempt u = none) := by
  obtain ⟨rest, hrest⟩ := probe_trace_pre attempt overpass_urls
  refine ⟨⟨rest, hrest⟩, ?_, ?_, ?_⟩
  · have hsub : (probe attempt overpass_urls).2.Sublist overpass_urls := by
      conv_rhs => rw [hrest]
      exact List.sublist_append_left _ _
    exact List.Nodup.sublist hsub (by decide)
  · exact probe_success attempt overpass_urls
  · exact probe_exhausted attempt overpass_urls

/-- C3 witness: with an attempt function on which only the second mirror
answers, the prober's result is that mirror's body, reached after the
first mirror failed, and the third mirror is never contacted. -/
theorem C3_witness :
    ∃ pre url, sampleAttempt url = some sampleData ∧
      (∀ u ∈ pre, sampleAttempt u = none) ∧
      (probe sampleAttempt overpass_urls).2 = pre ++ [url] ∧
      ∃ rest, overpass_urls = pre ++ url :: rest :=
  (C3_prober_first_success sampleAttempt).2.2.1 sampleData (by decide)

/-- C4: when every candidate endpoint fails, the run terminates with the
fatal all-failed error and performs no filesystem action at all: neither
the output directory creation nor any of the file writes happens. -/
theorem C4_all_fail_no_output (attempt : String → Option OverpassData)
    (T : CRSTransform) (h : ∀ u ∈ overpass_urls, attempt u = none) :
    mainRun attempt T = .error "All Overpass instances failed" ∧
    ∀ acts, mainRun attempt T ≠ .ok acts := by
  have hp := probe_none_of_all_fail attempt overpass_urls h
  have hmain : mainRun attempt T = .error "All Overpass instances failed" := by
    unfold mainRun
    rw [hp]
  exact ⟨hmain, fun acts hacts => by rw [hmain] at hacts; cases hacts⟩

/-- C4 witness: the theorem applied to the attempt function on which every
mirror fails. -/
theorem C4_witness :
    mainRun (fun _ => none) idTransform = .error "All Overpass instances failed" ∧
    ∀ acts, mainRun (fun _ => none) idTransform ≠ .ok acts :=
  C4_all_fail_no_output (fun _ => none) idTransform (by decide)

/-! ### Reprojection lemmas -/

theorem reprojectFeature_same (T : CRSTransform) (c : String) (f : Feature) :
    reprojectFeature T c c f = f := by
  have hfun : T.apply c c = id := funext (T.apply_same c)
  unfold reprojectFeature
  rw [hfun, List.map_id]

/-- C6: reprojection is a pure function of the geographic table: for a
fixed table and fixed target CRS, applying the reprojection a second time
yields a table with coordinates identical to applying it once. -/
theorem C6_reproject_idempotent (T : CRSTransform) (gdf : GeoDataFrame)
    (target : String) :
    to_crs T (to_crs T gdf target) target = to_crs T gdf target := by
  simp [to_crs, reprojectFeature_same]

/-- C6 witness: the theorem evaluated on the sample table and the concrete
identity transform family. -/
theorem C6_witness :
    to_crs idTransform (to_crs idTransform sampleGdf "EPSG:25833") "EPSG:25833"
      = to_crs idTransform sampleGdf "EPSG:25833" :=
  C6_reproject_idempotent idTransform sampleGdf "EPSG:25833"

/-! ### Bounds lemmas -/

theorem foldl_min_mem (l : List ℚ) : ∀ a : ℚ, l.foldl min a ∈ a :: l := by
  induction l with
  | nil => intro a; simp
  | cons b l ih =>
    intro a
    have h := ih (min a b)
    rw [List.foldl_cons]
    rcases List.mem_cons.mp h with h1 | h1
    · rw [h1]
      rcases min_choice a b with hm | hm <;> rw [hm] <;> simp
    · simp [h1]

theorem foldl_max_mem (l : List ℚ) : ∀ a : ℚ, l.foldl max a ∈ a :: l := by
  induction l with
  | nil => intro a; simp
  | cons b l ih =>
    intro a
    have h := ih (max a b)
    rw [List.foldl_cons]
    rcases List.mem_cons.mp h with h1 | h1
    · rw [h1]
      rcases max_choice a b with hm | hm <;> rw [hm] <;> simp
    · simp [h1]

theorem foldl_min_le (l : List ℚ) : ∀ a : ℚ, ∀ x ∈ a :: l, l.foldl min a ≤ x := by
  induction l with
  | nil =>
    intro a x hx
    rw [List.mem_singleton] at hx
    simp [hx]
  | cons b l ih =>
    intro a x hx
    rw [List.foldl_cons]
    rcases List.mem_cons.mp hx with h1 | hx2
    · rw [h1]
      exact le_trans (ih (min a b) (min a b) (List.mem_cons_self _ _)) (min_le_left a b)
    · rcases List.mem_cons.mp hx2 with h2 | hx3
      · rw [h2]
        exact le_trans (ih (min a b) (min a b) (List.mem_cons_self _ _)) (min_le_right a b)
      · exact ih (min a b) x (List.mem_cons_of_mem _ hx3)

theorem foldl_max_le (l : List ℚ) : ∀ a : ℚ, ∀ x ∈ a :: l, x ≤ l.foldl max a := by
  induction l with
  | nil =>
    intro a x hx
    rw [List.mem_singleton] at hx
    simp [hx]
  | cons b l ih =>
    intro a x hx
    rw [List.foldl_cons]
    rcases List.mem_cons.mp hx with h1 | hx2
    · rw [h1]
      exact le_trans (le_max_left a b) (ih (max a b) (max a b) (List.mem_cons_self _ _))
    · rcases List.mem_cons.mp hx2 with h2 | hx3
      · rw [h2]
        exact le_trans (le_max_right a b) (ih (max a b) (max a b) (List.mem_cons_self _ _))
      · exact ih (max a b) x (List.mem_cons_of_mem _ hx3)

/-- C7: for a non-empty geographic table, the map's initial focal point is
the arithmetic midpoint of the table's bounding extent: its latitude is
(min lat + max lat) / 2 and its longitude is (min lon + max lon) / 2 over
all coordinates of all features. -/
theorem C7_map_center (gdf : GeoDataFrame) (h : allCoords gdf ≠ []) :
    ∃ latMin latMax lonMin lonMax : ℚ,
      latMin ∈ (allCoords gdf).map Prod.snd ∧
      (∀ y ∈ (allCoords gdf).map Prod.snd, latMin ≤ y) ∧
      latMax ∈ (allCoords gdf).map Prod.snd ∧
      (∀ y ∈ (allCoords gdf).map Prod.snd, y ≤ latMax) ∧
      lonMin ∈ (allCoords gdf).map Prod.fst ∧
      (∀ x ∈ (allCoords gdf).map Prod.fst, lonMin ≤ x) ∧
      lonMax ∈ (allCoords gdf).map Prod.fst ∧
      (∀ x ∈ (allCoords gdf).map Prod.fst, x ≤ lonMax) ∧
      (buildMap gdf).location = ((latMin + latMax) / 2, (lonMin + lonMax) / 2) := by
  cases heq : allCoords gdf with
  | nil => exact absurd heq h
  | cons c cs =>
    refine ⟨(cs.map Prod.snd).foldl min c.2, (cs.map Prod.snd).foldl max c.2,
            (cs.map Prod.fst).foldl min c.1, (cs.map Prod.fst).foldl max c.1,
            ?_, ?_, ?_, ?_, ?_, ?_, ?_, ?_, ?_⟩
    · rw [List.map_cons]
      exact foldl_min_mem _ _
    · rw [List.map_cons]
      exact foldl_min_le _ _
    · rw [List.map_cons]
      exact foldl_max_mem _ _
    · rw [List.map_cons]
      exact foldl_max_le _ _
    · rw [List.map_cons]
      exact foldl_min_mem _ _
    · rw [List.map_cons]
      exact foldl_min_le _ _
    · rw [List.map_cons]
      exact foldl_max_mem _ _
    · rw [List.map_cons]
      exact foldl_max_le _ _
    · simp [buildMap, total_bounds, heq, List.foldl_map]

/-- C7 witness: the theorem applied to the sample geographic table. -/
theorem C7_witness :
    ∃ latMin latMax lonMin lonMax : ℚ,
      latMin ∈ (allCoords sampleGdf).map Prod.snd ∧
      (∀ y ∈ (allCoords sampleGdf).map Prod.snd, latMin ≤ y) ∧
      latMax ∈ (allCoords sampleGdf).map Prod.snd ∧
      (∀ y ∈ (allCoords sampleGdf).map Prod.snd, y ≤ latMax) ∧
      lonMin ∈ (allCoords sampleGdf).map Prod.fst ∧
      (∀ x ∈ (allCoords sampleGdf).map Prod.fst, lonMin ≤ x) ∧
      lonMax ∈ (allCoords sampleGdf).map Prod.fst ∧
      (∀ x ∈ (allCoords sampleGdf).map Prod.fst, x ≤ lonMax) ∧
      (buildMap sampleGdf).location = ((latMin + latMax) / 2, (lonMin + lonMax) / 2) :=
  C7_map_center sampleGdf (by decide)

/-- C8: every successful run performs the directory creation followed by
exactly four file writes, all under the fixed output directory: the
geographic table once as GeoJSON, the planar table twice (GeoJSON and
ESRI Shapefile), and the rendered HTML map of the geographic table. -/
theorem C8_outputs (attempt : String → Option OverpassData) (T : CRSTransform)
    (acts : List FsAction) (h : mainRun attempt T = .ok acts) :
    ∃ g : GeoDataFrame,
      g.crs = "EPSG:4326" ∧
      (to_crs T g "EPSG:25833").crs = "EPSG:25833" ∧
      acts = [.mkdirAction "data",
              .write ⟨"data/siemensbahn_wgs84.geojson", .vector "GeoJSON" g⟩,
              .write ⟨"data/siemensbahn_utm33.geojson",
                      .vector "GeoJSON" (to_crs T g "EPSG:25833")⟩,
              .write ⟨"data/siemensbahn_utm33.shp",
                      .vector "ESRI Shapefile" (to_crs T g "EPSG:25833")⟩,
              .write ⟨"data/siemensbahn_map.html", .htmlMap (buildMap g)⟩] ∧
      (outputWrites acts).length = 4 ∧
      (∀ w ∈ outputWrites acts, ∃ s, w.path = "data/" ++ s) := by
  unfold mainRun at h
  cases hp : (probe attempt overpass_urls).1 with
  | none => rw [hp] at h; cases h
  | some data =>
    rw [hp] at h
    have h2 : afterFetch T data = .ok acts := h
    unfold afterFetch at h2
    cases hx : extractFeatures data with
    | none => rw [hx] at h2; cases h2
    | some features =>
      rw [hx] at h2
      have h3 : Except.ok (runActs T features) = Except.ok acts := h2
      have hacts : acts = runActs T features := ((Except.ok.injEq _ _).mp h3).symm
      subst hacts
      refine ⟨from_features features "EPSG:4326", rfl, rfl, rfl, rfl, ?_⟩
      intro w hw
      simp only [runActs, outputWrites, List.filterMap_cons, List.filterMap_nil] at hw
      rcases List.mem_cons.mp hw with h4 | hw
      · refine ⟨"siemensbahn_wgs84.geojson", ?_⟩
        rw [h4]
        show ("data/siemensbahn_wgs84.geojson" : String) = "data/" ++ "siemensbahn_wgs84.geojson"
        rfl
      rcases List.mem_cons.mp hw with h4 | hw
      · refine ⟨"siemensbahn_utm33.geojson", ?_⟩
        rw [h4]
        show ("data/siemensbahn_utm33.geojson" : String) = "data/" ++ "siemensbahn_utm33.geojson"
        rfl
      rcases List.mem_cons.mp hw with h4 | hw
      · refine ⟨"siemensbahn_utm33.shp", ?_⟩
        rw [h4]
        show ("data/siemensbahn_utm33.shp" : String) = "data/" ++ "siemensbahn_utm33.shp"
        rfl
      rcases List.mem_cons.mp hw with h4 | hw
      · refine ⟨"siemensbahn_map.html", ?_⟩
        rw [h4]
        show ("data/siemensbahn_map.html" : String) = "data/" ++ "siemensbahn_map.html"
        rfl
      · cases hw

/-- C8 witness: the action list of the successful sample run. -/
theorem C8_witness :
    ∃ g : GeoDataFrame,
      g.crs = "EPSG:4326" ∧
      (to_crs idTransform g "EPSG:25833").crs = "EPSG:25833" ∧
      sampleRunActs = [.mkdirAction "data",
              .write ⟨"data/siemensbahn_wgs84.geojson", .vector "GeoJSON" g⟩,
              .write ⟨"data/siemensbahn_utm33.geojson",
                      .vector "GeoJSON" (to_crs idTransform g "EPSG:25833")⟩,
              .write ⟨"data/siemensbahn_utm33.shp",
                      .vector "ESRI Shapefile" (to_crs idTransform g "EPSG:25833")⟩,
              .write ⟨"data/siemensbahn_map.html", .htmlMap (buildMap g)⟩] ∧
      (outputWrites sampleRunActs).length = 4 ∧
      (∀ w ∈ outputWrites sampleRunActs, ∃ s, w.path = "data/" ++ s) :=
  C8_outputs sampleAttempt idTransform sampleRunActs (by rfl)

/-- C10: the pipeline performs no emptiness check after extraction: when
the fetched response holds no qualifying way element, the extractor
returns the empty feature list and the run still proceeds through the
directory creation, all four file writes and the map render, instead of
stopping with a dedicated empty-result error. -/
theorem C10_empty_result_proceeds (attempt : String → Option OverpassData)
    (T : CRSTransform) (data : OverpassData)
    (h1 : (probe attempt overpass_urls).1 = some data)
    (h2 : data.elements.filter qualifies = []) :
    extractFeatures data = some [] ∧
    mainRun attempt T = .ok
      [.mkdirAction "data",
       .write ⟨"data/siemensbahn_wgs84.geojson",
               .vector "GeoJSON" ⟨"EPSG:4326", []⟩⟩,
       .write ⟨"data/siemensbahn_utm33.geojson",
               .vector "GeoJSON" ⟨"EPSG:25833", []⟩⟩,
       .write ⟨"data/siemensbahn_utm33.shp",
               .vector "ESRI Shapefile" ⟨"EPSG:25833", []⟩⟩,
       .write ⟨"data/siemensbahn_map.html",
               .htmlMap (buildMap ⟨"EPSG:4326", []⟩)⟩] := by
  have hex : extractFeatures data = some [] := by
    rw [extractFeatures_eq_qualifies, h2]
    rfl
  refine ⟨hex, ?_⟩
  unfold mainRun
  rw [h1]
  show afterFetch T data = _
  unfold afterFetch
  rw [hex]
  rfl

/-- C10 witness: the theorem applied to a run whose first mirror answers
with a response holding only a node element. -/
theorem C10_witness :
    extractFeatures ⟨[sampleNode]⟩ = some [] ∧
    mainRun emptyAttempt idTransform = .ok
      [.mkdirAction "data",
       .write ⟨"data/siemensbahn_wgs84.geojson",
               .vector "GeoJSON" ⟨"EPSG:4326", []⟩⟩,
       .write ⟨"data/siemensbahn_utm33.geojson",
               .vector "GeoJSON" ⟨"EPSG:25833", []⟩⟩,
       .write ⟨"data/siemensbahn_utm33.shp",
               .vector "ESRI Shapefile" ⟨"EPSG:25833", []⟩⟩,
       .write ⟨"data/siemensbahn_map.html",
               .htmlMap (buildMap ⟨"EPSG:4326", []⟩)⟩] :=
  C10_empty_result_proceeds emptyAttempt idTransform ⟨[sampleNode]⟩
    (by decide) (by decide)

end Siemensbahn
